import Mathlib

/-!
Verification development for the axiosse HTTP/SSE client (src/index.ts).

The embedding below translates the source file shallowly:

* JS runtime values that the client inspects (truthiness, typeof checks,
  FormData detection) become the inductive `JSValue`.
* The synchronous portion of `Axiosse.request` (destructuring, URL/query
  construction, fetch-config construction; src lines 59-86) becomes the
  pure function `Axiosse.prepare`.  A JS exception thrown in that portion
  is modelled with `Except JSError`.
* The promise chain built from the interceptor managers (src lines
  88-161) becomes `Axiosse.request` over an arbitrary value domain `A`:
  a settled promise is `Except A A` (fulfilled or rejected, both carrying
  an arbitrary JS value), `promise.then(h)` is `thenStep`, and
  `promise.catch(h)` is `catchStep`.  Interceptor handlers are partial
  JS functions `A -> Except A A` (they may return or throw).
* Platform builtins that the code delegates to are modelled at their
  interface: `fetch` is an explicit `transport` function argument,
  `JSON.parse` is an explicit `jsonParse` argument of `safeParseJSON`
  (returning `none` where the builtin would throw), and
  `encodeURIComponent` is implemented from the ECMAScript definition
  (percent-encoding of UTF-8 bytes of every character outside the
  unreserved set).
-/

set_option autoImplicit false

deriving instance DecidableEq for Except

namespace Axiosse

/-- JS runtime values as far as the client inspects them: the client only
looks at truthiness, at whether `typeof v` is the string "object", and at
whether a value is a `FormData` instance.  Plain objects, arrays and
FormData instances are kept abstract. -/
inductive JSValue where
  | undef
  | null
  | jbool (b : Bool)
  | jnum (n : Int)
  | jstr (s : String)
  | jobj
  | jarr
  | jform
  deriving DecidableEq, Repr

/-- JS truthiness of the modelled values (NaN is outside the integer
model of JS numbers used here). -/
def truthy : JSValue → Bool
  | .undef => false
  | .null => false
  | .jbool b => b
  | .jnum n => n != 0
  | .jstr s => s != ""
  | .jobj => true
  | .jarr => true
  | .jform => true

/-- Whether `typeof v` evaluates to the string "object" (true for null,
plain objects, arrays and FormData instances). -/
def typeofIsObject : JSValue → Bool
  | .null => true
  | .jobj => true
  | .jarr => true
  | .jform => true
  | _ => false

/-- Whether `v instanceof FormData` holds. -/
def isFormData : JSValue → Bool
  | .jform => true
  | _ => false

/-- The `Method` union type of src/index.ts line 1. -/
inductive Method where
  | GET
  | POST
  | PUT
  | DELETE
  | PATCH
  deriving DecidableEq, Repr

/-- The `ResponseType` union type of src/index.ts line 2. -/
inductive ResponseType where
  | arraybuffer
  | blob
  | document
  | json
  | text
  | stream
  deriving DecidableEq, Repr

/-- A thrown JS error, reduced to the two fields the client reads:
`error.name` (line 149) and the message. -/
structure JSError where
  name : String
  message : String
  deriving DecidableEq, Repr

/-- `AxiosseRequestConfig` (src lines 4-14).  Optional TS fields become
`Option`; `url` is also an `Option` because the runtime never checks its
presence (TS typing is erased at runtime).  `data` is a `JSValue` with
`JSValue.undef` for an absent field.  `headers` and `params` records are
insertion-ordered pair lists; param values (string/number/boolean) are
kept in their string coercion.  `signal` records only whether a caller
supplied an AbortSignal. -/
structure AxiosseRequestConfig where
  url : Option String
  method : Option Method
  headers : List (String × String)
  data : JSValue
  params : Option (List (String × String))
  responseType : Option ResponseType
  timeout : Option Nat
  withCredentials : Option Bool
  signal : Bool
  deriving DecidableEq, Repr

/-- Whether a character is in the unreserved set that
`encodeURIComponent` leaves unescaped: A-Z a-z 0-9 - _ . ! ~ * ( ) and
the apostrophe. -/
def isUnreservedChar (c : Char) : Bool :=
  ('A' ≤ c && c ≤ 'Z') || ('a' ≤ c && c ≤ 'z') || ('0' ≤ c && c ≤ '9') ||
    c == '-' || c == '_' || c == '.' || c == '!' || c == '~' || c == '*' ||
    c == '\'' || c == '(' || c == ')'

/-- Uppercase hexadecimal digit for a value below 16. -/
def hexDigitChar (n : Nat) : Char :=
  if n < 10 then Char.ofNat (48 + n) else Char.ofNat (55 + n)

/-- Percent-escape of one byte, as produced by `encodeURIComponent`. -/
def percentEncodeByte (b : Nat) : List Char :=
  ['%', hexDigitChar (b / 16), hexDigitChar (b % 16)]

/-- UTF-8 bytes of a Unicode scalar value. -/
def utf8BytesOf (c : Char) : List Nat :=
  let n := c.toNat
  if n < 128 then [n]
  else if n < 2048 then [192 + n / 64, 128 + n % 64]
  else if n < 65536 then [224 + n / 4096, 128 + n / 64 % 64, 128 + n % 64]
  else [240 + n / 262144, 128 + n / 4096 % 64, 128 + n / 64 % 64, 128 + n % 64]

/-- Encoding of one character under `encodeURIComponent`. -/
def encodeChar (c : Char) : List Char :=
  if isUnreservedChar c then [c]
  else ((utf8BytesOf c).map percentEncodeByte).flatten

/-- The ECMAScript `encodeURIComponent` builtin on strings of Unicode
scalar values (Lean strings never contain the lone surrogates on which
the builtin would throw). -/
def encodeURIComponent (s : String) : String :=
  String.mk ((s.toList.map encodeChar).flatten)

/-- One `key=value` component of the query string, as built on src line
66 of index.ts. -/
def encodePair (p : String × String) : String :=
  encodeURIComponent p.1 ++ "=" ++ encodeURIComponent p.2

/-- The query string of src lines 65-67: encoded entries joined with
an ampersand, in insertion order of the params record. -/
def queryString (ps : List (String × String)) : String :=
  String.intercalate "&" (ps.map encodePair)

/-- The TypeError thrown by evaluating `url.includes` when `url` is
undefined at runtime (src line 68 with an absent `url`). -/
def urlIncludesTypeError : JSError :=
  { name := "TypeError"
    message := "Cannot read properties of undefined (reading includes)" }

/-- URL construction of src lines 63-69: when a params record is present
(any object is truthy, even an empty one) the encoded query string is
appended, after an ampersand if the address already contains a question
mark and after a question mark otherwise.  No method check and no
presence check of `url` occurs; with `url` absent and params present the
expression `url.includes` throws a TypeError. -/
def buildRequestUrl (url : Option String) (params : Option (List (String × String))) :
    Except JSError (Option String) :=
  match params with
  | none => .ok url
  | some ps =>
    match url with
    | none => .error urlIncludesTypeError
    | some u => .ok (some (u ++ (if u.toList.any (fun c => c == '?') then "&" else "?") ++ queryString ps))

/-- The body slot of the fetch configuration (src lines 79-86): either
the JSON.stringify serialization of a structured value or the raw value
passed through.  The serialized text itself is irrelevant to every
claim, so the serialization is kept as a tagged constructor. -/
inductive FetchBody where
  | jsonStringified (v : JSValue)
  | raw (v : JSValue)
  deriving DecidableEq, Repr

/-- `Headers.set`: replace an existing entry with the same
case-insensitive name, else append. -/
def headersSet (hs : List (String × String)) (name value : String) :
    List (String × String) :=
  if hs.any (fun p => p.1.toLower == name.toLower) then
    hs.map (fun p => if p.1.toLower == name.toLower then (p.1, value) else p)
  else hs ++ [(name, value)]

/-- The data branch of src lines 79-86: a falsy `data` contributes no
body at all; a truthy structured value that is not FormData is
serialized to JSON with the Content-Type header set; anything else is
passed through unchanged.  Returns the resulting headers and body. -/
def buildFetchBody (headers : List (String × String)) (data : JSValue) :
    List (String × String) × Option FetchBody :=
  if truthy data then
    if typeofIsObject data && !isFormData data then
      (headersSet headers "Content-Type" "application/json", some (.jsonStringified data))
    else (headers, some (.raw data))
  else (headers, none)

/-- The outbound representation handed to the transport: the address
after query construction, the effective method, the headers and body of
the fetch configuration, and the credentials mode. -/
structure PreparedRequest where
  requestUrl : Option String
  methodUsed : Method
  headers : List (String × String)
  body : Option FetchBody
  credentials : String
  deriving DecidableEq, Repr

/-- The synchronous portion of `Axiosse.request` (src lines 59-86):
destructuring with defaults, URL/query construction, fetch-config
construction.  There is no validation of the target address anywhere in
this portion; the only possible synchronous failure is the TypeError
from `url.includes` when `url` is absent and params are present. -/
def prepare (config : AxiosseRequestConfig) : Except JSError PreparedRequest :=
  match buildRequestUrl config.url config.params with
  | .error e => .error e
  | .ok requestUrl =>
    let hb := buildFetchBody config.headers config.data
    .ok { requestUrl := requestUrl
          methodUsed := config.method.getD .GET
          headers := hb.1
          body := hb.2
          credentials := if config.withCredentials.getD false then "include" else "same-origin" }

/-- `Axiosse.stream` entry (src lines 165-168): the method first
executes the assignment on the caller's configuration object
(`config.responseType = 'stream'`) and then delegates the same object to
`request`.  Because the assignment happens on the caller's object (no
copy is taken), the first component of the result is the caller's
configuration as it stands after the call; the second component is the
prepared request derived from it. -/
def stream (config : AxiosseRequestConfig) :
    AxiosseRequestConfig × Except JSError PreparedRequest :=
  let mutated := { config with responseType := some .stream }
  (mutated, prepare mutated)

/-- `Axiosse.streamGenerator` entry (src lines 191-194): identical
mutation of the caller's configuration object before delegating to
`request`. -/
def streamGenerator (config : AxiosseRequestConfig) :
    AxiosseRequestConfig × Except JSError PreparedRequest :=
  let mutated := { config with responseType := some .stream }
  (mutated, prepare mutated)

/-- JS truthiness of the `timeout` field (src lines 114 and 150): a
number is truthy when it is nonzero. -/
def timeoutTruthy : Option Nat → Bool
  | none => false
  | some n => n != 0

/-- Which party triggered an abort of the transport call. -/
inductive AbortSource where
  | caller
  | timer
  deriving DecidableEq, Repr

/-- Which abort sources can actually reach the fetch call (src lines
111-116): `fetchSignal` is the caller's signal when one is supplied and
the internal controller's signal otherwise, and the timeout timer aborts
only the internal controller.  So a caller abort reaches the fetch
exactly when a caller signal was supplied, and a timer abort reaches it
exactly when no caller signal was supplied and a truthy timeout was
configured. -/
def abortPossible (callerSignal : Bool) (timeout : Option Nat) : AbortSource → Bool
  | .caller => callerSignal
  | .timer => !callerSignal && timeoutTruthy timeout

/-- The catch block of the transport step (src lines 148-153): an error
named AbortError is replaced by a fresh error whose message is
"Request aborted", with " due to timeout" appended exactly when the
configured timeout is truthy; any other error is rethrown unchanged. -/
def transportCatch (timeout : Option Nat) (e : JSError) : JSError :=
  if e.name == "AbortError" then
    { name := "Error"
      message := "Request aborted" ++ (if timeoutTruthy timeout then " due to timeout" else "") }
  else e

/-- Whether a character is a JS regular-expression line terminator,
which the dot atom does not match. -/
def isLineTerminator (c : Char) : Bool :=
  c == '\n' || c == '\r' || c == '\u2028' || c == '\u2029'

/-- The test of the literal regular expression of src line 252 of the
repository, written there as the character class pair `[{$$]` / `[}$$]`
around a dot-star: the whole string must consist of a first character
that is a left brace or a dollar sign, a run of non-line-terminator
characters, and a last character that is a right brace or a dollar
sign. -/
def regexTest (s : String) : Bool :=
  decide (2 ≤ s.toList.length) &&
    (match s.toList.head? with
     | some c => c == '{' || c == '$'
     | none => false) &&
    (match s.toList.getLast? with
     | some c => c == '}' || c == '$'
     | none => false) &&
    ((s.toList.drop 1).dropLast.all fun c => !isLineTerminator c)

/-- The `safeParseJSON` utility (src lines 251-267).  `JSON.parse` is
abstracted as the `jsonParse` argument, returning `none` where the
builtin would throw (the catch branch logs and returns the default
value).  A falsy input, a non-string input, or a string failing the
shape check returns the default value without parsing. -/
def safeParseJSON (jsonParse : String → Option JSValue) (jsonString : JSValue)
    (defaultValue : JSValue) : JSValue :=
  match jsonString with
  | .jstr s =>
    if s == "" then defaultValue
    else if !regexTest s then defaultValue
    else
      match jsonParse s with
      | some v => v
      | none => defaultValue
  | _ => defaultValue

/-- An interceptor entry (src lines 28-31): an optional fulfillment
handler and an optional rejection handler.  In the promise-chain
embedding both handlers are JS functions over the value domain `A` that
either return (`Except.ok`) or throw (`Except.error`). -/
structure Handler (A : Type) where
  fulfilled : Option (A → Except A A)
  rejected : Option (A → Except A A)

/-- `InterceptorManager` (src lines 27-51): a growable list of slots,
where an ejected slot is overwritten with null (`none`) rather than
removed, so identifiers (indices) stay stable. -/
structure InterceptorManager (A : Type) where
  handlers : List (Option (Handler A))

/-- A manager with no registrations. -/
def InterceptorManager.empty {A : Type} : InterceptorManager A := ⟨[]⟩

/-- `use` (src lines 33-36): push the pair and return its index. -/
def InterceptorManager.use {A : Type} (m : InterceptorManager A)
    (fulfilled rejected : Option (A → Except A A)) : InterceptorManager A × Nat :=
  (⟨m.handlers ++ [some ⟨fulfilled, rejected⟩]⟩, m.handlers.length)

/-- `eject` (src lines 38-42): overwrite the slot with null when it is
currently occupied; a no-op on an unknown identifier (out-of-bounds
`List.set` is the identity, and nulling an already-null slot is too). -/
def InterceptorManager.eject {A : Type} (m : InterceptorManager A) (id : Nat) :
    InterceptorManager A :=
  ⟨m.handlers.set id none⟩

/-- The entries `forEach` presents (src lines 44-50): the non-null
slots, in index order. -/
def InterceptorManager.active {A : Type} (m : InterceptorManager A) : List (Handler A) :=
  m.handlers.filterMap id

/-- `promise.then(h)` on a settled promise: a fulfilled value is fed to
the handler when one is present (the handler may return or throw); a
rejection passes through; an absent handler passes everything
through. -/
def thenStep {A : Type} (f : Option (A → Except A A)) : Except A A → Except A A
  | .ok v =>
    match f with
    | none => .ok v
    | some g => g v
  | .error e => .error e

/-- `promise.catch(h)` on a settled promise: a rejection is fed to the
handler when one is present (a normal return re-fulfills the promise, a
throw re-rejects it); a fulfilled value passes through. -/
def catchStep {A : Type} (f : Option (A → Except A A)) : Except A A → Except A A
  | .ok v => .ok v
  | .error e =>
    match f with
    | none => .error e
    | some g => g e

/-- One step of the chain construction on src lines 104-106 and 157-159:
`promise = promise.then(interceptor).catch(interceptor)` attaches the
same chain element as both fulfillment and rejection handler. -/
def chainLink {A : Type} (x : Option (A → Except A A)) (st : Except A A) : Except A A :=
  catchStep x (thenStep x st)

/-- Running a whole interceptor chain over a settled promise, element by
element (the `forEach` of src lines 104 and 157). -/
def runChain {A : Type} (chain : List (Option (A → Except A A))) (st : Except A A) :
    Except A A :=
  chain.foldl (fun s x => chainLink x s) st

/-- The two chain entries an interceptor contributes: its fulfillment
handler followed by its rejection handler. -/
def handlerLinks {A : Type} (h : Handler A) : List (Option (A → Except A A)) :=
  [h.fulfilled, h.rejected]

/-- The request chain array of src lines 89-92: `forEach` visits active
entries in index order and `unshift` prepends each pair, so the array
lists the pairs in reverse registration order. -/
def reqChainOf {A : Type} (hs : List (Handler A)) : List (Option (A → Except A A)) :=
  hs.foldl (fun acc h => handlerLinks h ++ acc) []

/-- The response chain array of src lines 95-98: `push` appends each
pair, so the array lists the pairs in registration order. -/
def respChainOf {A : Type} (hs : List (Handler A)) : List (Option (A → Except A A)) :=
  hs.foldl (fun acc h => acc ++ handlerLinks h) []

/-- The request interceptor chain built from a manager. -/
def buildRequestChain {A : Type} (m : InterceptorManager A) :
    List (Option (A → Except A A)) :=
  reqChainOf m.active

/-- The response interceptor chain built from a manager. -/
def buildResponseChain {A : Type} (m : InterceptorManager A) :
    List (Option (A → Except A A)) :=
  respChainOf m.active

/-- The promise pipeline of `Axiosse.request` (src lines 100-161): the
initial promise resolves with the prepared configuration `init`; the
request chain is attached link by link; the transport step is attached
with a single `then` (no catch of its own — its internal try/catch is
part of `transport`); the response chain is attached link by link.  The
`transport` argument stands for the async function of src lines 109-154:
it receives the in-flight configuration and either returns an envelope
or throws (a raw network failure is rethrown unchanged, an abort is
rewrapped per `transportCatch`). -/
def request {A : Type} (requestInterceptors responseInterceptors : InterceptorManager A)
    (transport : A → Except A A) (init : A) : Except A A :=
  runChain (buildResponseChain responseInterceptors)
    (thenStep (some transport)
      (runChain (buildRequestChain requestInterceptors) (.ok init)))

/-- A handler that never throws, for stating order-of-application
facts. -/
def pureHandler {A : Type} (g : A → A) : Option (A → Except A A) :=
  some (fun v => .ok (g v))

/-- Registering a list of never-throwing fulfillment handlers (no
rejection handlers), in list order, through `use`. -/
def registerAll {A : Type} (gs : List (A → A)) : InterceptorManager A :=
  gs.foldl (fun m g => (m.use (pureHandler g) none).1) .empty

/-! ### Basic facts about the promise-chain embedding -/

/-- An absent then-handler passes a settled promise through. -/
theorem thenStep_none {A : Type} (st : Except A A) : thenStep none st = st := by
  cases st <;> rfl

/-- An absent catch-handler passes a settled promise through. -/
theorem catchStep_none {A : Type} (st : Except A A) : catchStep none st = st := by
  cases st <;> rfl

/-- An absent chain element is the identity on the promise. -/
theorem chainLink_none {A : Type} (st : Except A A) : chainLink none st = st := by
  cases st <;> rfl

/-- A present chain element on a fulfilled promise: the handler runs on
the value, and its own catch attachment then runs on whatever it
produced. -/
theorem chainLink_some_ok {A : Type} (f : A → Except A A) (v : A) :
    chainLink (some f) (.ok v) = catchStep (some f) (f v) := rfl

/-- A present chain element on a rejected promise: the then attachment
passes the rejection through and the catch attachment feeds it to the
very same handler. -/
theorem chainLink_some_error {A : Type} (f : A → Except A A) (e : A) :
    chainLink (some f) (.error e) = f e := rfl

theorem runChain_nil {A : Type} (st : Except A A) : runChain [] st = st := rfl

theorem runChain_cons {A : Type} (x : Option (A → Except A A))
    (rest : List (Option (A → Except A A))) (st : Except A A) :
    runChain (x :: rest) st = runChain rest (chainLink x st) := rfl

theorem runChain_append {A : Type} (xs ys : List (Option (A → Except A A)))
    (st : Except A A) : runChain (xs ++ ys) st = runChain ys (runChain xs st) := by
  simp [runChain, List.foldl_append]

/-- The accumulator of the unshift-built request chain is a suffix. -/
theorem reqChainOf_acc {A : Type} (hs : List (Handler A))
    (a : List (Option (A → Except A A))) :
    hs.foldl (fun acc h => handlerLinks h ++ acc) a = reqChainOf hs ++ a := by
  induction hs generalizing a with
  | nil => simp [reqChainOf]
  | cons h t ih =>
    show t.foldl _ (handlerLinks h ++ a) = reqChainOf (h :: t) ++ a
    rw [ih]
    have : reqChainOf (h :: t) = reqChainOf t ++ handlerLinks h := by
      show t.foldl _ (handlerLinks h ++ []) = _
      rw [ih]
      simp
    rw [this, List.append_assoc]

/-- Unshift-building puts a later registration in front of an earlier
one: the chain of a first handler follows the chain of the rest. -/
theorem reqChainOf_cons {A : Type} (h : Handler A) (t : List (Handler A)) :
    reqChainOf (h :: t) = reqChainOf t ++ handlerLinks h := by
  show t.foldl _ (handlerLinks h ++ []) = _
  rw [reqChainOf_acc]
  simp

/-- The accumulator of the push-built response chain is a prefix. -/
theorem respChainOf_acc {A : Type} (hs : List (Handler A))
    (a : List (Option (A → Except A A))) :
    hs.foldl (fun acc h => acc ++ handlerLinks h) a = a ++ respChainOf hs := by
  induction hs generalizing a with
  | nil => simp [respChainOf]
  | cons h t ih =>
    show t.foldl _ (a ++ handlerLinks h) = a ++ respChainOf (h :: t)
    rw [ih]
    have : respChainOf (h :: t) = handlerLinks h ++ respChainOf t := by
      show t.foldl _ ([] ++ handlerLinks h) = _
      rw [ih]
      simp
    rw [this, List.append_assoc]

/-- Push-building keeps registration order: the chain of the first
handler precedes the chain of the rest. -/
theorem respChainOf_cons {A : Type} (h : Handler A) (t : List (Handler A)) :
    respChainOf (h :: t) = handlerLinks h ++ respChainOf t := by
  show t.foldl _ ([] ++ handlerLinks h) = _
  rw [respChainOf_acc]
  simp

/-- Nulling slot `i` leaves exactly the active entries of the slots
before `i` and after `i`. -/
theorem filterMap_id_set_none {A : Type} (l : List (Option (Handler A))) (i : Nat) :
    ((l.set i none).filterMap id : List (Handler A))
      = (l.take i).filterMap id ++ (l.drop (i + 1)).filterMap id := by
  induction l generalizing i with
  | nil => simp
  | cons x t ih =>
    cases i with
    | zero => cases x <;> simp
    | succ j =>
      cases x with
      | none => simpa using ih j
      | some h => simpa using ih j

/-- The handler list built by `registerAll`. -/
theorem registerAll_handlers {A : Type} (gs : List (A → A)) :
    (registerAll gs).handlers
      = gs.map (fun g => some ⟨pureHandler g, none⟩) := by
  have key : ∀ (l : List (A → A)) (m : InterceptorManager A),
      (l.foldl (fun m g => (m.use (pureHandler g) none).1) m).handlers
        = m.handlers ++ l.map (fun g => some ⟨pureHandler g, none⟩) := by
    intro l
    induction l with
    | nil => intro m; simp
    | cons g t ih =>
      intro m
      show (t.foldl _ (m.use (pureHandler g) none).1).handlers = _
      rw [ih]
      simp [InterceptorManager.use]
  simpa [InterceptorManager.empty] using key gs ⟨[]⟩

/-- The active entries of a `registerAll` manager, in registration
order. -/
theorem registerAll_active {A : Type} (gs : List (A → A)) :
    (registerAll gs).active = gs.map (fun g => (⟨pureHandler g, none⟩ : Handler A)) := by
  rw [InterceptorManager.active, registerAll_handlers]
  induction gs with
  | nil => rfl
  | cons g t ih => simpa using ih

/-- Running the unshift-built request chain of never-throwing handlers
applies them right-to-left over the registration list, i.e. in reverse
registration order. -/
theorem runChain_reqChain_pure {A : Type} (gs : List (A → A)) (init : A) :
    runChain (buildRequestChain (registerAll gs)) (.ok init)
      = .ok (gs.foldr (fun g v => g v) init) := by
  rw [buildRequestChain, registerAll_active]
  induction gs with
  | nil => rfl
  | cons g t ih =>
    rw [List.map_cons, reqChainOf_cons, runChain_append, ih]
    rfl

/-- Running the push-built response chain of never-throwing handlers
applies them left-to-right over the registration list, i.e. in
registration order. -/
theorem runChain_respChain_pure {A : Type} (gs : List (A → A)) (init : A) :
    runChain (buildResponseChain (registerAll gs)) (.ok init)
      = .ok (gs.foldl (fun v g => g v) init) := by
  rw [buildResponseChain, registerAll_active]
  induction gs generalizing init with
  | nil => rfl
  | cons g t ih =>
    rw [List.map_cons, respChainOf_cons, runChain_append]
    show runChain _ (runChain (handlerLinks ⟨pureHandler g, none⟩) (.ok init)) = _
    have : runChain (handlerLinks (⟨pureHandler g, none⟩ : Handler A)) (.ok init)
        = .ok (g init) := rfl
    rw [this, ih]
    rfl

/-! ### Claim C1 -/

/-- C1 counterexample.  The claim states that no response interceptor
fulfillment handler ever observes a raw transport error and that the
pipeline rejects with the failure.  Concretely: with one response
interceptor registered through use with only a fulfillment handler, and
a transport that rejects with the raw error "NETFAIL", the pipeline
FULFILLS with the fulfillment handler applied to the raw error (the
handler observed it), instead of rejecting with "NETFAIL". -/
theorem c1_counterexample :
    request (.empty : InterceptorManager String)
        ((InterceptorManager.empty.use (some fun s => .ok ("seen:" ++ s)) none).1)
        (fun _ => .error "NETFAIL") "cfg" = .ok "seen:NETFAIL"
    ∧ request (.empty : InterceptorManager String)
        ((InterceptorManager.empty.use (some fun s => .ok ("seen:" ++ s)) none).1)
        (fun _ => .error "NETFAIL") "cfg" ≠ .error "NETFAIL" := by
  refine ⟨rfl, ?_⟩
  intro h
  exact Except.noConfusion h

/-- C1 (amended): because every chain element is attached as both a
then and a catch handler, a transport failure is observed by the
response-interceptor fulfillment chain: when the request stage ends with
the transport rejecting with error `e`, the first active response
interceptor — registered with a fulfillment handler `f` and no rejection
handler — receives `e` as input, and the pipeline continues from the
settled result of `f e` through the remaining response chain. -/
theorem c1_amended {A : Type} (reqM respM : InterceptorManager A)
    (transport : A → Except A A) (f : A → Except A A) (hs : List (Handler A))
    (init e : A)
    (hchain : respM.active = ⟨some f, none⟩ :: hs)
    (hT : thenStep (some transport) (runChain (buildRequestChain reqM) (.ok init))
        = .error e) :
    request reqM respM transport init = runChain (respChainOf hs) (f e) := by
  rw [request, hT, buildResponseChain, hchain, respChainOf_cons, runChain_append]
  congr 1
  show chainLink none (chainLink (some f) (.error e)) = f e
  rw [chainLink_some_error, chainLink_none]

/-- C1 amended witness at a concrete instance. -/
theorem c1_amended_witness :
    request (.empty : InterceptorManager String)
        ((InterceptorManager.empty.use (some fun s => .ok ("got:" ++ s)) none).1)
        (fun _ => .error "ERR") "cfg"
      = runChain (respChainOf ([] : List (Handler String)))
          ((fun s => (.ok ("got:" ++ s) : Except String String)) "ERR") :=
  c1_amended .empty _ (fun _ => .error "ERR") (fun s => .ok ("got:" ++ s)) [] "cfg" "ERR"
    rfl rfl

/-! ### Claim C2 -/

/-- C2 counterexample.  The claim states that request interceptor
fulfillment handlers run in registration order (first registered first).
Concretely: registering an append-1 handler and then an append-2 handler
and running the pipeline on "c" yields "c21" (second registered ran
first), not the "c12" the claim predicts. -/
theorem c2_counterexample :
    request (registerAll [fun s => s ++ "1", fun s => s ++ "2"])
        (.empty : InterceptorManager String) (fun s => .ok s) "c" = .ok "c21"
    ∧ request (registerAll [fun s => s ++ "1", fun s => s ++ "2"])
        (.empty : InterceptorManager String) (fun s => .ok s) "c" ≠ .ok "c12" := by
  refine ⟨rfl, ?_⟩
  intro h
  have : "c21" = "c12" := Except.ok.inj h
  exact absurd this (by decide)

/-- C2 (amended): for interceptors registered with never-throwing
fulfillment handlers and no rejection handlers, the request chain
applies the handlers in REVERSE registration order (last registered
first, the foldr below), while the response chain applies them in
registration order (the foldl below); and ejecting slot i removes
exactly that slot from the entries any later request iterates, so an
ejected interceptor is never invoked by a request started after the
ejection. -/
theorem c2_amended (A : Type) :
    (∀ (gs : List (A → A)) (respM : InterceptorManager A)
        (transport : A → Except A A) (init : A),
        request (registerAll gs) respM transport init
          = runChain (buildResponseChain respM)
              (thenStep (some transport) (.ok (gs.foldr (fun g v => g v) init))))
    ∧ (∀ (gs : List (A → A)) (init : A),
        runChain (buildResponseChain (registerAll gs)) (.ok init)
          = .ok (gs.foldl (fun v g => g v) init))
    ∧ (∀ (m : InterceptorManager A) (i : Nat),
        (m.eject i).active
          = (m.handlers.take i).filterMap id ++ (m.handlers.drop (i + 1)).filterMap id) := by
  refine ⟨?_, ?_, ?_⟩
  · intro gs respM transport init
    rw [request, runChain_reqChain_pure]
  · intro gs init
    exact runChain_respChain_pure gs init
  · intro m i
    exact filterMap_id_set_none m.handlers i

/-! ### Claim C3 -/

/-- C3 counterexample.  The claim states that rejection handlers are
invoked only on failure.  Concretely: registering a request interceptor
through use with NO fulfillment handler and a rejection handler, and
running the pipeline on "c" with everything succeeding, yields the
rejection handler applied to the successful configuration ("r:c")
instead of the untouched "c" the claim predicts. -/
theorem c3_counterexample :
    request ((InterceptorManager.empty.use none (some fun s => .ok ("r:" ++ s))).1)
        (.empty : InterceptorManager String) (fun s => .ok s) "c" = .ok "r:c"
    ∧ request ((InterceptorManager.empty.use none (some fun s => .ok ("r:" ++ s))).1)
        (.empty : InterceptorManager String) (fun s => .ok s) "c" ≠ .ok "c" := by
  refine ⟨rfl, ?_⟩
  intro h
  have : "r:c" = "c" := Except.ok.inj h
  exact absurd this (by decide)

/-- C3 (amended): each chain element is attached as both a then and a
catch handler, so (1) a fulfillment handler that throws is immediately
re-invoked with its own error by its paired catch attachment — the error
does not travel to the next rejection handler; (2) an error reaching a
present chain element of either kind (fulfillment or rejection) is fed
to that element; (3) an error only propagates out unchanged when every
remaining chain element is absent. -/
theorem c3_amended (A : Type) :
    (∀ (f : A → Except A A) (v e : A) (rest : List (Option (A → Except A A))),
        f v = .error e → runChain (some f :: rest) (.ok v) = runChain rest (f e))
    ∧ (∀ (h : A → Except A A) (e : A) (rest : List (Option (A → Except A A))),
        runChain (some h :: rest) (.error e) = runChain rest (h e))
    ∧ (∀ (chain : List (Option (A → Except A A))) (e : A),
        (∀ x ∈ chain, x = none) → runChain chain (.error e) = .error e) := by
  refine ⟨?_, ?_, ?_⟩
  · intro f v e rest hfe
    rw [runChain_cons, chainLink_some_ok, hfe]
    rfl
  · intro h e rest
    rw [runChain_cons, chainLink_some_error]
  · intro chain e
    induction chain with
    | nil => intro _; rfl
    | cons x rest ih =>
      intro hall
      have hx : x = none := hall x (by simp)
      subst hx
      rw [runChain_cons, chainLink_none]
      exact ih (fun y hy => hall y (by simp [hy]))

/-- C3 amended witness at concrete instances. -/
theorem c3_amended_witness :
    runChain [some fun s => (.error (s ++ "E") : Except String String)] (.ok "v")
      = runChain [] ((fun s => (.error (s ++ "E") : Except String String)) "vE")
    ∧ runChain [some fun s => (.ok ("h:" ++ s) : Except String String)] (.error "E")
      = runChain [] ((fun s => (.ok ("h:" ++ s) : Except String String)) "E")
    ∧ runChain ([none] : List (Option (String → Except String String))) (.error "E")
      = .error "E" :=
  ⟨(c3_amended String).1 _ "v" "vE" [] rfl,
   (c3_amended String).2.1 _ "E" [],
   (c3_amended String).2.2 [none] "E" (by intro x hx; simpa using hx)⟩

/-! ### Claim C4 -/

/-- C4 counterexample.  The claim states that a call with an absent url
fails synchronously with a configuration error before interceptors or
transport run.  Concretely: with url absent (and no params), the
synchronous portion of request completes WITHOUT any error, producing a
prepared request with an undefined address, and the pipeline proceeds. -/
theorem c4_counterexample :
    prepare
      { url := none
        method := none
        headers := []
        data := .undef
        params := none
        responseType := none
        timeout := none
        withCredentials := none
        signal := false }
      = .ok
      { requestUrl := none
        methodUsed := .GET
        headers := []
        body := none
        credentials := "same-origin" } := rfl

/-- C4 (amended): request performs no validation of the target address.
With url absent and params absent the synchronous portion succeeds and
hands an undefined address to the rest of the pipeline; with url absent
and params present it throws a TypeError from evaluating url.includes —
in neither case is a deliberate configuration error produced. -/
theorem c4_amended (cfg : AxiosseRequestConfig) (hurl : cfg.url = none) :
    (cfg.params = none →
      prepare cfg = .ok
        { requestUrl := none
          methodUsed := cfg.method.getD .GET
          headers := (buildFetchBody cfg.headers cfg.data).1
          body := (buildFetchBody cfg.headers cfg.data).2
          credentials := if cfg.withCredentials.getD false then "include" else "same-origin" })
    ∧ (∀ ps, cfg.params = some ps → prepare cfg = .error urlIncludesTypeError) := by
  constructor
  · intro hp
    simp [prepare, buildRequestUrl, hurl, hp]
  · intro ps hp
    simp [prepare, buildRequestUrl, hurl, hp]

/-- C4 amended witness at a concrete configuration. -/
theorem c4_amended_witness :
    prepare
      { url := none
        method := none
        headers := [("a", "b")]
        data := .undef
        params := none
        responseType := none
        timeout := none
        withCredentials := none
        signal := false }
      = .ok
      { requestUrl := none
        methodUsed := Method.GET
        headers := (buildFetchBody [("a", "b")] .undef).1
        body := (buildFetchBody [("a", "b")] .undef).2
        credentials := if (Option.getD none false) then "include" else "same-origin" } :=
  (c4_amended
    { url := none
      method := none
      headers := [("a", "b")]
      data := .undef
      params := none
      responseType := none
      timeout := none
      withCredentials := none
      signal := false } rfl).1 rfl

/-! ### Claim C5 -/

/-- C5 counterexample.  The claim states that an abort triggered by a
caller-supplied cancellation token produces a message without the
timeout annotation even when a timeout is configured.  Concretely: with
a caller signal supplied and timeout 50 configured, a caller abort is
possible (indeed only a caller abort is), yet the catch block produces
the message "Request aborted due to timeout". -/
theorem c5_counterexample :
    abortPossible true (some 50) .caller = true
    ∧ transportCatch (some 50) { name := "AbortError", message := "" }
        = { name := "Error", message := "Request aborted due to timeout" }
    ∧ ("Request aborted due to timeout" : String) ≠ "Request aborted" := by
  refine ⟨rfl, rfl, by decide⟩

/-- C5 (amended): the abort message depends only on the truthiness of
the configured timeout and not on the source of the abort — any
AbortError is rewritten to "Request aborted", annotated with
" due to timeout" exactly when the timeout is truthy; moreover when a
caller signal is supplied the timeout timer cannot abort the transport
at all (its controller is not the one wired to the fetch). -/
theorem c5_amended (callerSignal : Bool) (t : Option Nat) (src : AbortSource)
    (m : String) (habort : abortPossible callerSignal t src = true) :
    transportCatch t { name := "AbortError", message := m }
      = { name := "Error"
          message := if timeoutTruthy t then "Request aborted due to timeout"
            else "Request aborted" }
    ∧ (callerSignal = true → abortPossible callerSignal t AbortSource.timer = false) := by
  constructor
  · have h1 : ("Request aborted" ++ " due to timeout" : String)
        = "Request aborted due to timeout" := rfl
    have h2 : ("Request aborted" ++ "" : String) = "Request aborted" := rfl
    cases ht : timeoutTruthy t <;> simp [transportCatch, ht, h1, h2]
  · intro hc
    subst hc
    rfl

/-- C5 amended witness: a caller-sourced abort with timeout 50. -/
theorem c5_amended_witness :
    transportCatch (some 50) { name := "AbortError", message := "x" }
      = { name := "Error"
          message := if timeoutTruthy (some 50) then "Request aborted due to timeout"
            else "Request aborted" }
    ∧ (true = true → abortPossible true (some 50) AbortSource.timer = false) :=
  c5_amended true (some 50) .caller "x" rfl

/-! ### Claim C6 -/

/-- C6 counterexample.  The claim states that stream and streamGenerator
leave every field of the caller's configuration unchanged, including
responseType.  Concretely: calling stream on a configuration whose
responseType is json leaves the caller's object with responseType
stream. -/
theorem c6_counterexample :
    (stream
      { url := some "u"
        method := none
        headers := []
        data := .undef
        params := none
        responseType := some .json
        timeout := none
        withCredentials := none
        signal := false }).1.responseType = some .stream
    ∧ (streamGenerator
      { url := some "u"
        method := none
        headers := []
        data := .undef
        params := none
        responseType := some .json
        timeout := none
        withCredentials := none
        signal := false }).1.responseType = some .stream
    ∧ some ResponseType.stream ≠ some ResponseType.json := by
  refine ⟨rfl, rfl, by decide⟩

/-- C6 (amended): stream and streamGenerator DO mutate the caller's
configuration object: they assign responseType := stream on it before
delegating to request; every other field of the caller's object is left
unchanged, and the delegated request works on the mutated object. -/
theorem c6_amended (cfg : AxiosseRequestConfig) :
    (stream cfg).1.responseType = some ResponseType.stream
    ∧ (stream cfg).1.url = cfg.url
    ∧ (stream cfg).1.method = cfg.method
    ∧ (stream cfg).1.headers = cfg.headers
    ∧ (stream cfg).1.data = cfg.data
    ∧ (stream cfg).1.params = cfg.params
    ∧ (stream cfg).1.timeout = cfg.timeout
    ∧ (stream cfg).1.withCredentials = cfg.withCredentials
    ∧ (stream cfg).1.signal = cfg.signal
    ∧ (streamGenerator cfg).1 = (stream cfg).1
    ∧ (stream cfg).2 = prepare (stream cfg).1 :=
  ⟨rfl, rfl, rfl, rfl, rfl, rfl, rfl, rfl, rfl, rfl, rfl⟩

/-! ### Claim C7 -/

/-- C7 (confirmed): for a GET configuration with a present, non-empty
params record, the address used for the transport is the base address
followed by an ampersand when the base already contains a question mark
and by a question mark otherwise, followed by the URL-encoded key=value
pairs joined with ampersands; every parameter contributes its encoded
pair to the joined list. -/
theorem c7_get_query_append (cfg : AxiosseRequestConfig) (u : String)
    (ps : List (String × String))
    (_hm : cfg.method = some Method.GET) (hu : cfg.url = some u)
    (hp : cfg.params = some ps) (_hne : ps ≠ []) :
    ∃ pr : PreparedRequest,
      prepare cfg = .ok pr
      ∧ pr.requestUrl
        = some (u ++ (if u.toList.any (fun c => c == '?') then "&" else "?")
            ++ String.intercalate "&" (ps.map encodePair))
      ∧ ∀ p ∈ ps, encodePair p ∈ ps.map encodePair := by
  have hb : buildRequestUrl cfg.url cfg.params
      = .ok (some (u ++ (if u.toList.any (fun c => c == '?') then "&" else "?")
          ++ queryString ps)) := by
    rw [hu, hp]
    rfl
  have hpre : prepare cfg = .ok
      { requestUrl := some (u ++ (if u.toList.any (fun c => c == '?') then "&" else "?")
          ++ queryString ps)
        methodUsed := cfg.method.getD .GET
        headers := (buildFetchBody cfg.headers cfg.data).1
        body := (buildFetchBody cfg.headers cfg.data).2
        credentials := if cfg.withCredentials.getD false then "include" else "same-origin" } := by
    unfold prepare
    rw [hb]
  exact ⟨_, hpre, rfl, fun p hps => List.mem_map_of_mem _ hps⟩

/-- C7 witness at a concrete GET configuration. -/
theorem c7_get_query_append_witness :
    ∃ pr : PreparedRequest,
      prepare
        { url := some "a?x"
          method := some Method.GET
          headers := []
          data := .undef
          params := some [("k 1", "v&2")]
          responseType := none
          timeout := none
          withCredentials := none
          signal := false } = .ok pr
      ∧ pr.requestUrl
        = some ("a?x" ++ (if "a?x".toList.any (fun c => c == '?') then "&" else "?")
            ++ String.intercalate "&" ([("k 1", "v&2")].map encodePair))
      ∧ ∀ p ∈ [("k 1", "v&2")], encodePair p ∈ [("k 1", "v&2")].map encodePair :=
  c7_get_query_append _ "a?x" [("k 1", "v&2")] rfl rfl rfl (by decide)

/-! ### Claim C9 -/

/-- C9 (confirmed): query-string appending is conditioned only on the
presence of a params record, never on the method — for EVERY method
field (including absent, GET, POST, PUT, DELETE, PATCH) the transport
address is the same appended address a GET request gets. -/
theorem c9_params_any_method (cfg : AxiosseRequestConfig) (u : String)
    (ps : List (String × String)) (m : Option Method)
    (hu : cfg.url = some u) (hp : cfg.params = some ps) :
    ∃ pr : PreparedRequest,
      prepare { cfg with method := m } = .ok pr
      ∧ pr.requestUrl
        = some (u ++ (if u.toList.any (fun c => c == '?') then "&" else "?")
            ++ queryString ps)
      ∧ pr.methodUsed = m.getD Method.GET := by
  have hb : buildRequestUrl ({ cfg with method := m } : AxiosseRequestConfig).url
      ({ cfg with method := m } : AxiosseRequestConfig).params
      = .ok (some (u ++ (if u.toList.any (fun c => c == '?') then "&" else "?")
          ++ queryString ps)) := by
    show buildRequestUrl cfg.url cfg.params = _
    rw [hu, hp]
    rfl
  have hpre : prepare { cfg with method := m } = .ok
      { requestUrl := some (u ++ (if u.toList.any (fun c => c == '?') then "&" else "?")
          ++ queryString ps)
        methodUsed := m.getD .GET
        headers := (buildFetchBody cfg.headers cfg.data).1
        body := (buildFetchBody cfg.headers cfg.data).2
        credentials := if cfg.withCredentials.getD false then "include" else "same-origin" } := by
    unfold prepare
    rw [hb]
  exact ⟨_, hpre, rfl, rfl⟩

/-- C9 witness: a POST request gets the query string appended exactly
like a GET request would. -/
theorem c9_params_any_method_witness :
    ∃ pr : PreparedRequest,
      prepare
        { url := some "a"
          method := some Method.POST
          headers := []
          data := .undef
          params := some [("k", "v")]
          responseType := none
          timeout := none
          withCredentials := none
          signal := false } = .ok pr
      ∧ pr.requestUrl
        = some ("a" ++ (if "a".toList.any (fun c => c == '?') then "&" else "?")
            ++ queryString [("k", "v")])
      ∧ pr.methodUsed = (some Method.POST).getD Method.GET :=
  c9_params_any_method
    { url := some "a"
      method := some Method.POST
      headers := []
      data := .undef
      params := some [("k", "v")]
      responseType := none
      timeout := none
      withCredentials := none
      signal := false } "a" [("k", "v")] (some Method.POST) rfl rfl

/-! ### Claim C10 -/

/-- C10 (confirmed): when the body payload is falsy (0, the empty
string, false, null, undefined), the prepared request carries no body at
all and the headers are exactly the caller's headers — the JSON
content-type header is not set; only truthy payloads produce a body. -/
theorem c10_falsy_data_no_body (cfg : AxiosseRequestConfig) (pr : PreparedRequest)
    (hfalsy : truthy cfg.data = false) (hpr : prepare cfg = .ok pr) :
    pr.body = none ∧ pr.headers = cfg.headers := by
  have hb : buildFetchBody cfg.headers cfg.data = (cfg.headers, none) := by
    simp [buildFetchBody, hfalsy]
  cases hbu : buildRequestUrl cfg.url cfg.params with
  | error e =>
    rw [prepare] at hpr
    rw [hbu] at hpr
    exact Except.noConfusion hpr
  | ok ru =>
    rw [prepare] at hpr
    rw [hbu] at hpr
    have := Except.ok.inj hpr
    rw [← this, hb]
    exact ⟨rfl, rfl⟩

/-- C10 witness: an explicitly supplied payload of 0 produces no body
and leaves the headers untouched. -/
theorem c10_falsy_data_no_body_witness :
    ({ requestUrl := some "u"
       methodUsed := Method.GET
       headers := [("x", "y")]
       body := none
       credentials := "same-origin" } : PreparedRequest).body = none
    ∧ ({ requestUrl := some "u"
         methodUsed := Method.GET
         headers := [("x", "y")]
         body := none
         credentials := "same-origin" } : PreparedRequest).headers = [("x", "y")] :=
  c10_falsy_data_no_body
    { url := some "u"
      method := none
      headers := [("x", "y")]
      data := .jnum 0
      params := none
      responseType := none
      timeout := none
      withCredentials := none
      signal := false } _ rfl rfl

/-! ### Claim C8 -/

/-- C8 counterexample.  The claim states that every syntactically valid
JSON array literal passes the coarse shape check and is parsed.
Concretely: the array literal string starting with a left bracket fails
the shape check (whose first character class accepts only a left brace
or a dollar sign), so safeParseJSON returns the fallback 7 instead of
the parsed array even though the parse function would succeed on it. -/
theorem c8_counterexample :
    regexTest "[1]" = false
    ∧ safeParseJSON (fun s => if s == "[1]" then some JSValue.jarr else none)
        (.jstr "[1]") (.jnum 7) = .jnum 7
    ∧ JSValue.jnum 7 ≠ JSValue.jarr := by
  refine ⟨by decide, by decide, by decide⟩

/-- C8 (amended): the coarse shape check accepts only strings whose
first character is a left brace or a dollar sign (so every JSON array
literal, starting with a left bracket, fails it and yields the
fallback); and for every input and every behaviour of the parse builtin,
safeParseJSON never raises: it returns either the fallback or, when the
input is a string that passes the shape check and parses successfully,
the parsed value. -/
theorem c8_amended :
    (∀ (jsonParse : String → Option JSValue) (s : String) (fb : JSValue),
        s.toList.head? = some '[' →
        safeParseJSON jsonParse (.jstr s) fb = fb)
    ∧ (∀ (jsonParse : String → Option JSValue) (j fb : JSValue),
        safeParseJSON jsonParse j fb = fb
        ∨ ∃ s v, j = .jstr s ∧ regexTest s = true ∧ jsonParse s = some v
            ∧ safeParseJSON jsonParse j fb = v) := by
  constructor
  · intro jsonParse s fb hhead
    have hreg : regexTest s = false := by
      have hh : s.data.head? = some '[' := hhead
      simp [regexTest, hh]
    cases hs : s == "" <;> simp [safeParseJSON, hs, hreg]
  · intro jsonParse j fb
    cases j with
    | jstr s =>
      cases hs : s == ""
      · cases hr : regexTest s
        · left
          simp [safeParseJSON, hs, hr]
        · cases hp : jsonParse s with
          | none =>
            left
            simp [safeParseJSON, hs, hr, hp]
          | some v =>
            right
            exact ⟨s, v, rfl, hr, hp, by simp [safeParseJSON, hs, hr, hp]⟩
      · left
        simp [safeParseJSON, hs]
    | undef => exact Or.inl rfl
    | null => exact Or.inl rfl
    | jbool b => exact Or.inl rfl
    | jnum n => exact Or.inl rfl
    | jobj => exact Or.inl rfl
    | jarr => exact Or.inl rfl
    | jform => exact Or.inl rfl

/-- C8 amended witness: an array literal input yields the fallback. -/
theorem c8_amended_witness :
    safeParseJSON (fun _ => none) (.jstr "[]") (.jnum 3) = .jnum 3 :=
  c8_amended.1 (fun _ => none) "[]" (.jnum 3) rfl

end Axiosse
